import Mathlib

/-!
Verification of the model-composition and dataset-assembly logic of
`finetune.py` (MRI lesion detection finetuning script).

The Python source is shallowly embedded:
* ratios are modelled as exact rationals, and Python's `int()` conversion
  (truncation toward zero) as `pyInt`;
* the dataset split of the `__main__` block becomes `splitLengths`;
* the label handling of `ADNIDataset.__getitem__` becomes `mapLabelCls`,
  `mapLabelReg` and `getitemLabel`, with Python's control flow made explicit
  (`Except`/`Option` for exceptions and the unbound-variable fallthrough);
* `customToTensor` / `resize_image` operate on a model of numpy arrays
  (`NDArray`) whose flattened payload is a function from indices to values;
* the task head (`FinetuneModel.__init__` / `forward` / `get_loss_metrics`)
  is modelled over the reals, with the upstream CNN ensemble and transformer
  (external modules) abstracted as an arbitrary feature map.
-/

namespace Finetune

/-! ## Python `int()` on rationals

Python's `int(x)` truncates toward zero: it agrees with `⌊x⌋` for
non-negative `x` and with `⌈x⌉` for negative `x`. -/

/-- Python `int()` conversion: truncation toward zero. -/
def pyInt (q : ℚ) : ℤ := if 0 ≤ q then ⌊q⌋ else ⌈q⌉

/-! ## The dataset split (`__main__`, lines 209–216)

```
lengths = [int(args.val_ratio*len(dataset)), int(args.test_ratio*len(dataset))]
if args.train_ratio == 1:
    lengths += [len(dataset)-sum(lengths)]
    val_dataset, test_dataset, train_dataset = random_split(dataset, lengths)
else:
    lengths += [int((len(dataset)-sum(lengths))*args.train_ratio)]
    lengths += [len(dataset)-sum(lengths)]
    val_dataset, test_dataset, train_dataset, _ = random_split(dataset, lengths)
```

The script itself performs no validation of the ratios and can raise no
error of its own while computing `lengths`; the list is handed to the
external `torch.utils.data.random_split`. -/

/-- Errors named by the specification for the split; the source never
raises any of them. -/
inductive SplitError
  | invalidRatio
  deriving DecidableEq, Repr

/-- The list `lengths` as computed by the source for a dataset of `n`
records: `val = int(val_ratio·n)` and `test = int(test_ratio·n)` always;
when `train_ratio == 1` a third entry `n - (val + test)` completes the
list, otherwise `train = int((n - (val + test))·train_ratio)` is appended
followed by the leftover `n - (val + test + train)`. -/
def splitLengths (n : ℕ) (valRatio testRatio trainRatio : ℚ) : List ℤ :=
  if trainRatio = 1 then
    [pyInt (valRatio * n), pyInt (testRatio * n),
      (n : ℤ) - (pyInt (valRatio * n) + pyInt (testRatio * n))]
  else
    [pyInt (valRatio * n), pyInt (testRatio * n),
      pyInt ((((n : ℤ) - (pyInt (valRatio * n) + pyInt (testRatio * n))) : ℤ) * trainRatio),
      (n : ℤ) - (pyInt (valRatio * n) + pyInt (testRatio * n) +
        pyInt ((((n : ℤ) - (pyInt (valRatio * n) + pyInt (testRatio * n))) : ℤ) * trainRatio))]

/-- The split as the source executes it: the length computation always
succeeds — there is no validation code, so no `InvalidRatioError` (nor any
other error) can be raised by the source while splitting. -/
def splitSrc (n : ℕ) (valRatio testRatio trainRatio : ℚ) :
    Except SplitError (List ℤ) :=
  .ok (splitLengths n valRatio testRatio trainRatio)

/-! ## Label handling (`ADNIDataset.__getitem__`, lines 155–174) -/

/-- Python `str.strip(c)`: remove every leading and trailing occurrence of
the character `c`. -/
def pyStrip (c : Char) (s : String) : String :=
  ⟨((s.data.dropWhile (· = c)).reverse.dropWhile (· = c)).reverse⟩

/-- The classification branch of `__getitem__`: the `if/elif` chain assigns
`label` for exactly the strings `AD`, `CN`, `MCI`; any other string falls
through with `label` never assigned (`none`). -/
def mapLabelCls (s : String) : Option ℕ :=
  if s = "AD" then some 1
  else if s = "CN" then some 0
  else if s = "MCI" then some 2
  else none

/-! ## A model of the Python builtin `float()` on decimal literals

`__getitem__` calls `float(...)` on the stripped manifest field in
regression mode.  `float()` is a Python builtin (an external collaborator);
it is modelled here on signed decimal literals with an optional fraction
and an optional decimal exponent, returning the exact rational value, and
`none` where the builtin raises `ValueError`. -/

/-- Value of a run of decimal digit characters. -/
def digitsVal (l : List Char) : ℕ :=
  l.foldl (fun a c => 10 * a + (c.toNat - 48)) 0

/-- Exponent part after the `e`/`E` of a decimal literal: optional sign
followed by a non-empty run of digits. -/
def parseExpPart (l : List Char) : Option ℤ :=
  match l with
  | '+' :: r => if r ≠ [] ∧ r.all Char.isDigit then some (digitsVal r) else none
  | '-' :: r => if r ≠ [] ∧ r.all Char.isDigit then some (-(digitsVal r : ℤ)) else none
  | r => if r ≠ [] ∧ r.all Char.isDigit then some (digitsVal r) else none

/-- Model of Python `float(s)` on decimal literals: optional sign, digits
with an optional fractional part (at least one digit overall), optional
exponent.  `none` models the `ValueError` the builtin raises on any other
string. -/
def parseFloat (s : String) : Option ℚ :=
  let (sgn, l1) : ℚ × List Char :=
    match s.data with
    | '+' :: r => (1, r)
    | '-' :: r => (-1, r)
    | r => (1, r)
  let ip := l1.takeWhile Char.isDigit
  let l2 := l1.dropWhile Char.isDigit
  let (fp, l3) : List Char × List Char :=
    match l2 with
    | '.' :: r => (r.takeWhile Char.isDigit, r.dropWhile Char.isDigit)
    | r => ([], r)
  if ip = [] ∧ fp = [] then none
  else
    let mant : ℚ := sgn * ((digitsVal ip : ℚ) + (digitsVal fp : ℚ) / 10 ^ fp.length)
    match l3 with
    | [] => some mant
    | 'e' :: r => (parseExpPart r).map fun e => mant * (10 : ℚ) ^ e
    | 'E' :: r => (parseExpPart r).map fun e => mant * (10 : ℚ) ^ e
    | _ => none

/-! ## `ADNIDataset.__getitem__` label computation (lines 155–174) -/

/-- Exceptions that `__getitem__`'s label computation can raise. -/
inductive ItemError
  /-- Python `UnboundLocalError`: `label` is read at `return a, label`
  without ever having been assigned (no branch of the `if/elif` matched). -/
  | unboundLocal
  /-- Python `ValueError` raised by `float()` on a non-numeric string;
  the design document names it `LabelParseError`. -/
  | labelParse
  deriving DecidableEq, Repr

/-- A label as returned by `__getitem__`: an integer class code in
classification mode, a numeric score in regression mode. -/
inductive Label
  | cls (k : ℕ)
  | score (q : ℚ)
  deriving DecidableEq, Repr

/-- The regression branch of `__getitem__`: `float(lst[4].strip(quote))`
either parses or raises. -/
def mapLabelReg (s : String) : Except ItemError ℚ :=
  match parseFloat s with
  | some q => .ok q
  | none => .error .labelParse

/-- The dataset after `__init__`: the parsed manifest rows (header already
dropped) and the classification switch. -/
structure ADNIDataset where
  lines : List (List String)
  classification : Bool

/-- `self.label_file_idx = 2 if classification else 4`. -/
def ADNIDataset.labelFileIdx (d : ADNIDataset) : ℕ :=
  if d.classification then 2 else 4

/-- The label computed by `__getitem__(idx)` (the image decoding half of
the method is an external collaborator and is not modelled). -/
def ADNIDataset.getitemLabel (d : ADNIDataset) (idx : ℕ) : Except ItemError Label :=
  let lst := d.lines.getD idx []
  if d.classification then
    match mapLabelCls (pyStrip '"' (lst.getD d.labelFileIdx "")) with
    | some k => .ok (.cls k)
    | none => .error .unboundLocal
  else
    (mapLabelReg (pyStrip '"' (lst.getD d.labelFileIdx ""))).map .score

/-! ## Parameter freezing (`FinetuneModel.__init__`, lines 25–42, and
`configure_optimizers`, lines 67–68)

A module parameter is modelled by its `requires_grad` flag; freshly
constructed modules have every parameter trainable (`requires_grad = True`
is the PyTorch default, and `load_state_dict` does not change it). -/

/-- A single module parameter, reduced to its `requires_grad` flag. -/
structure Param where
  requiresGrad : Bool
  deriving DecidableEq, Repr

/-- The parameter list of a freshly constructed module with `n`
parameters: all trainable. -/
def freshParams (n : ℕ) : List Param := List.replicate n ⟨true⟩

/-- `for p in module.parameters(): p.requires_grad = False`. -/
def freezeParams (ps : List Param) : List Param :=
  ps.map fun p => { p with requiresGrad := false }

/-- The three parameter groups of `FinetuneModel` after `__init__`:
the transformer (the design's fusion network), the CNN ensemble
(the design's per-view ensemble), and the task-head MLP. -/
structure FinetuneModel where
  transformer : List Param
  cnnModels : List Param
  mlps : List Param
  deriving DecidableEq, Repr

/-- `__init__`: each pretrained sub-model is loaded and then frozen
exactly when its finetune flag is off; the MLP head is freshly
constructed and never frozen. -/
def mkFinetuneModel (finetuneTransformer finetuneCnn : Bool)
    (nTransformer nCnn nMlp : ℕ) : FinetuneModel where
  transformer :=
    if finetuneTransformer then freshParams nTransformer
    else freezeParams (freshParams nTransformer)
  cnnModels :=
    if finetuneCnn then freshParams nCnn
    else freezeParams (freshParams nCnn)
  mlps := freshParams nMlp

/-- `self.parameters()`: all parameter groups of the module. -/
def FinetuneModel.parameters (m : FinetuneModel) : List Param :=
  m.transformer ++ m.cnnModels ++ m.mlps

/-- `configure_optimizers`: the optimizer is built over
`filter(lambda x: x.requires_grad, self.parameters())`. -/
def FinetuneModel.optimizerParams (m : FinetuneModel) : List Param :=
  m.parameters.filter (·.requiresGrad)

/-! ## `customToTensor` and `resize_image` (lines 126–138)

A numpy array is modelled by its shape, dtype and flattened payload (a
function from flat index to rational value; indices at or beyond the size
are irrelevant). -/

/-- Numpy dtypes that occur in the pipeline. -/
inductive DType
  | float64
  | float32
  deriving DecidableEq, Repr

/-- Model of a numpy ndarray: shape, dtype, and the flattened payload. -/
structure NDArray where
  shape : List ℕ
  dtype : DType
  data : ℕ → ℚ

/-- Total number of elements. -/
def NDArray.size (a : NDArray) : ℕ := a.shape.prod

/-- `a.astype(t)`: same shape and payload, new dtype (the float64→float32
value rounding is below the granularity of this model). -/
def NDArray.astype (a : NDArray) (t : DType) : NDArray :=
  { a with dtype := t }

/-- A Python value as far as `customToTensor` inspects it: either a numpy
ndarray or anything else (tagged, so there are many non-array values). -/
inductive PyVal
  | ndarray (a : NDArray)
  | other (tag : String)

/-- `np.resize(a, trg)`: a new array of shape `trg` whose flattened data
cyclically repeats (or truncates) the flattened input; an empty input is
padded with zeros.  The dtype is preserved.  No interpolation happens. -/
def npResize (a : NDArray) (trg : List ℕ) : NDArray where
  shape := trg
  dtype := a.dtype
  data := fun i => if a.size = 0 then 0 else a.data (i % a.size)

/-- `np.resize` always returns an ndarray, never any other Python value. -/
def npResizeVal (a : NDArray) (trg : List ℕ) : PyVal :=
  .ndarray (npResize a trg)

/-- `resize_image`: calls `np.resize` and then raises on the (dead)
branch where the result is not an ndarray. -/
def resize_image (imgArray : NDArray) (trgSize : List ℕ) : Except String NDArray :=
  match npResizeVal imgArray trgSize with
  | .ndarray res => .ok res
  | .other _ => .error "type error!"

/-- Model of `torch.from_numpy` (external); its result is immediately
overwritten in `customToTensor`, so only its existence matters. -/
def torchFromNumpy (a : NDArray) : NDArray := a

/-- `customToTensor(img)`: on an ndarray, converts to a torch tensor,
immediately overwrites that binding with `resize_image(img, ...)` applied
to the original numpy input, and casts to float32; on any other input the
function body is skipped and Python returns `None`. -/
def customToTensor (v : PyVal) : Except String (Option NDArray) :=
  match v with
  | .ndarray img =>
    let img1 := torchFromNumpy img
    match resize_image img [150, 150, 200] with
    | .ok img1 => .ok (some (img1.astype .float32))
    | .error e => .error e
  | .other _ => .ok none

/-! ## The task head over the reals
(`FinetuneModel.__init__` lines 44–65, `forward` lines 70–86,
`get_loss_metrics` lines 88–99)

The upstream pipeline — the CNN ensemble, the transformer and the
flatten/mean aggregation — consists of external modules plus shape
plumbing; it is abstracted as an arbitrary feature map `u` producing the
`hidden`-sized vector that feeds `self.mlps`.  The MLP head itself
(Linear, ReLU, then Linear to 3 outputs, or Linear to 1 output and
Sigmoid) is modelled layer by layer. -/

/-- Logistic function computed by `nn.Sigmoid`. -/
noncomputable def sigmoid (x : ℝ) : ℝ := 1 / (1 + Real.exp (-x))

/-- Rectifier computed by `nn.ReLU`. -/
def relu (x : ℝ) : ℝ := max x 0

/-- An affine layer `nn.Linear(n, m)`. -/
noncomputable def linearLayer {n m : ℕ} (w : Fin m → Fin n → ℝ) (b : Fin m → ℝ)
    (x : Fin n → ℝ) : Fin m → ℝ :=
  fun i => (∑ j, w i j * x j) + b i

/-- Weights of the regression head `self.mlps`:
`Linear(in_size, in_size), ReLU, Linear(in_size, 1), Sigmoid`. -/
structure RegMlps (hidden : ℕ) where
  w1 : Fin hidden → Fin hidden → ℝ
  b1 : Fin hidden → ℝ
  w2 : Fin 1 → Fin hidden → ℝ
  b2 : Fin 1 → ℝ

/-- The regression head applied to one feature vector. -/
noncomputable def regMlpsApply {hidden : ℕ} (m : RegMlps hidden)
    (x : Fin hidden → ℝ) : ℝ :=
  sigmoid (linearLayer m.w2 m.b2 (fun j => relu (linearLayer m.w1 m.b1 x j)) 0)

/-- `forward` in regression mode on one sample: upstream feature map `u`
(CNN ensemble, transformer, flatten/mean — external), then the MLP head,
then the `out*100` range adjustment. -/
noncomputable def forwardReg {α : Type} {hidden : ℕ} (u : α → Fin hidden → ℝ)
    (m : RegMlps hidden) (x : α) : ℝ :=
  regMlpsApply m (u x) * 100

/-- `F.softmax(x, dim=1)` on one row of logits. -/
noncomputable def softmax {n : ℕ} (x : Fin n → ℝ) (i : Fin n) : ℝ :=
  Real.exp (x i) / ∑ j, Real.exp (x j)

/-- `F.log_softmax(x, dim=1)` on one row of logits, in the form torch
computes it (`x i` minus the log of the sum of exponentials). -/
noncomputable def logSoftmax {n : ℕ} (x : Fin n → ℝ) (i : Fin n) : ℝ :=
  x i - Real.log (∑ j, Real.exp (x j))

/-- `get_loss_metrics` in classification mode, reduced to the two
normalizations it applies to the forward output `pred` (one row per
sample): the metric input `F.softmax(pred, dim=1)` and the loss input
`F.log_softmax(pred, dim=1)`. -/
noncomputable def getLossMetricsCls {b : ℕ} (pred : Fin b → Fin 3 → ℝ) :
    (Fin b → Fin 3 → ℝ) × (Fin b → Fin 3 → ℝ) :=
  (fun s => logSoftmax (pred s), fun s => softmax (pred s))

/-! ## Helper lemmas -/

theorem pyInt_eq_floor (q : ℚ) (h : 0 ≤ q) : pyInt q = ⌊q⌋ := if_pos h

theorem splitLengths_ratio_one (n : ℕ) (valRatio testRatio : ℚ) :
    splitLengths n valRatio testRatio 1 =
      [pyInt (valRatio * n), pyInt (testRatio * n),
        (n : ℤ) - (pyInt (valRatio * n) + pyInt (testRatio * n))] := by
  unfold splitLengths
  exact if_pos rfl

theorem splitLengths_ratio_ne_one (n : ℕ) (valRatio testRatio trainRatio : ℚ)
    (h : trainRatio ≠ 1) :
    splitLengths n valRatio testRatio trainRatio =
      [pyInt (valRatio * n), pyInt (testRatio * n),
        pyInt ((((n : ℤ) - (pyInt (valRatio * n) + pyInt (testRatio * n))) : ℤ) * trainRatio),
        (n : ℤ) - (pyInt (valRatio * n) + pyInt (testRatio * n) +
          pyInt ((((n : ℤ) - (pyInt (valRatio * n) + pyInt (testRatio * n))) : ℤ) * trainRatio))] := by
  unfold splitLengths
  exact if_neg h

/-- Whichever branch is taken, the computed lengths always sum to the
record count: the last entry is defined as `n` minus the sum of the
previous ones. -/
theorem splitLengths_sum (n : ℕ) (valRatio testRatio trainRatio : ℚ) :
    (splitLengths n valRatio testRatio trainRatio).sum = n := by
  by_cases h : trainRatio = 1
  · subst h; rw [splitLengths_ratio_one]; simp; ring
  · rw [splitLengths_ratio_ne_one n valRatio testRatio trainRatio h]; simp; ring

theorem freezeParams_freshParams (n : ℕ) :
    freezeParams (freshParams n) = List.replicate n ⟨false⟩ := by
  simp [freezeParams, freshParams]

theorem filter_requiresGrad_replicate_false (n : ℕ) :
    (List.replicate n (Param.mk false)).filter (·.requiresGrad) = [] := by
  induction n with
  | zero => rfl
  | succ k ih => simp [List.replicate_succ, ih]

theorem all_requiresGrad_filter (l : List Param) :
    (l.filter (·.requiresGrad)).all (·.requiresGrad) = true := by
  rw [List.all_eq_true]
  intro p hp
  exact (List.mem_filter.mp hp).2

theorem sigmoid_pos (x : ℝ) : 0 < sigmoid x := by
  unfold sigmoid
  positivity

theorem sigmoid_lt_one (x : ℝ) : sigmoid x < 1 := by
  unfold sigmoid
  rw [div_lt_one (by positivity)]
  linarith [Real.exp_pos (-x)]

theorem sum_exp_pos {n : ℕ} [NeZero n] (x : Fin n → ℝ) :
    (0 : ℝ) < ∑ j, Real.exp (x j) :=
  Finset.sum_pos (fun _ _ => Real.exp_pos _) Finset.univ_nonempty

/-! ## The claims -/

/-- Claim C1 (code bug): the classification branch of `__getitem__` has no
handler for an unrecognized manifest label.  For the label string `FOO`
the `if/elif` chain assigns nothing, and item access fails with Python's
unbound-local error at `return a, label` — not with an `UnknownLabelError`
naming the offending string; no such error exists anywhere in the code.
The specification itself records this as a corrected source ambiguity. -/
theorem c1_unknown_label_fallthrough :
    mapLabelCls "FOO" = none ∧
    (ADNIDataset.mk [["\"i0\"", "g0", "\"FOO\"", "x", "\"71.1\""]] true).getitemLabel 0 =
      .error .unboundLocal :=
  ⟨rfl, rfl⟩

/-- Claim C2 fails as stated: with `train_ratio = 1` and
`val_ratio = test_ratio = 9/10` (both inside `(0,1]`) on 10 records, the
computed train length is `10 - 9 - 9 = -8`, which is negative, so the
three subset sizes are not all non-negative. -/
theorem c2_counterexample :
    splitLengths 10 (9/10) (9/10) 1 = [9, 9, -8] ∧
    (splitLengths 10 (9/10) (9/10) 1).getD 2 0 < 0 := by
  have h : splitLengths 10 (9/10) (9/10) 1 = [9, 9, -8] := by
    norm_num [splitLengths, pyInt]
  exact ⟨h, by rw [h]; decide⟩

/-- Claim C2 (amended): for non-negative `val_ratio` and `test_ratio`
whose floored shares fit into `n`, the `train_ratio == 1` branch computes
`val_size = floor(val_ratio·n)`, `test_size = floor(test_ratio·n)` and
`train_size = n - val_size - test_size`; the three sizes are non-negative
and sum exactly to `n`, the rounding remainder going to the train
subset. -/
theorem c2_split_no_discard (n : ℕ) (valRatio testRatio : ℚ)
    (hv : 0 ≤ valRatio) (ht : 0 ≤ testRatio)
    (hn : ⌊valRatio * n⌋ + ⌊testRatio * n⌋ ≤ (n : ℤ)) :
    splitLengths n valRatio testRatio 1 =
      [⌊valRatio * n⌋, ⌊testRatio * n⌋,
        (n : ℤ) - (⌊valRatio * n⌋ + ⌊testRatio * n⌋)] ∧
    0 ≤ ⌊valRatio * n⌋ ∧ 0 ≤ ⌊testRatio * n⌋ ∧
    0 ≤ (n : ℤ) - (⌊valRatio * n⌋ + ⌊testRatio * n⌋) ∧
    (splitLengths n valRatio testRatio 1).sum = n := by
  have hv' : (0 : ℚ) ≤ valRatio * n := mul_nonneg hv (Nat.cast_nonneg n)
  have ht' : (0 : ℚ) ≤ testRatio * n := mul_nonneg ht (Nat.cast_nonneg n)
  refine ⟨?_, Int.floor_nonneg.mpr hv', Int.floor_nonneg.mpr ht', by omega,
    splitLengths_sum n valRatio testRatio 1⟩
  rw [splitLengths_ratio_one, pyInt_eq_floor _ hv', pyInt_eq_floor _ ht']

/-- Witness for C2 at the specification's own scenario: 10 records with
`val_ratio = test_ratio = 1/5` give sizes `(2, 2, 6)` summing to 10. -/
theorem c2_split_no_discard_witness :
    splitLengths 10 (1/5) (1/5) 1 = [2, 2, 6] ∧
    (splitLengths 10 (1/5) (1/5) 1).sum = 10 := by
  have h := c2_split_no_discard 10 (1/5) (1/5) (by norm_num) (by norm_num) (by norm_num)
  refine ⟨?_, h.2.2.2.2⟩
  rw [h.1]
  norm_num

/-- Claim C3 fails as stated: with `val_ratio = test_ratio = 9/10` and
`train_ratio = 3/10` on 10 records, the remaining pool is `-8` and the
code computes the train length with Python `int()` (truncation toward
zero), giving `int(-2.4) = -2`, while the claimed `floor(remaining ·
train_ratio)` is `-3`. -/
theorem c3_counterexample :
    splitLengths 10 (9/10) (9/10) (3/10) = [9, 9, -2, -6] ∧
    (splitLengths 10 (9/10) (9/10) (3/10)).getD 2 0 = -2 ∧
    ⌊((-8 : ℚ)) * (3/10)⌋ = -3 := by
  have h : splitLengths 10 (9/10) (9/10) (3/10) = [9, 9, -2, -6] := by
    norm_num [splitLengths, pyInt, Int.ceil_neg]
  exact ⟨h, by rw [h]; decide, by norm_num⟩

/-- Claim C3 (amended): for non-negative ratios whose floored val/test
shares fit into `n` and `train_ratio < 1`, the split computes
`remaining = n - val_size - test_size`,
`train_size = floor(remaining · train_ratio)` and a fourth discarded
partition `discard_size = remaining - train_size`, and the four parts sum
exactly to `n`. -/
theorem c3_split_with_discard (n : ℕ) (valRatio testRatio trainRatio : ℚ)
    (hv : 0 ≤ valRatio) (ht : 0 ≤ testRatio) (htr : 0 ≤ trainRatio)
    (h1 : trainRatio < 1)
    (hn : ⌊valRatio * n⌋ + ⌊testRatio * n⌋ ≤ (n : ℤ)) :
    splitLengths n valRatio testRatio trainRatio =
      [⌊valRatio * n⌋, ⌊testRatio * n⌋,
        ⌊((((n : ℤ) - (⌊valRatio * n⌋ + ⌊testRatio * n⌋)) : ℤ) : ℚ) * trainRatio⌋,
        ((n : ℤ) - (⌊valRatio * n⌋ + ⌊testRatio * n⌋)) -
          ⌊((((n : ℤ) - (⌊valRatio * n⌋ + ⌊testRatio * n⌋)) : ℤ) : ℚ) * trainRatio⌋] ∧
    (splitLengths n valRatio testRatio trainRatio).sum = n := by
  have hv' : (0 : ℚ) ≤ valRatio * n := mul_nonneg hv (Nat.cast_nonneg n)
  have ht' : (0 : ℚ) ≤ testRatio * n := mul_nonneg ht (Nat.cast_nonneg n)
  have hrem : (0 : ℤ) ≤ (n : ℤ) - (⌊valRatio * n⌋ + ⌊testRatio * n⌋) := by omega
  have hrem' : (0 : ℚ) ≤
      ((((n : ℤ) - (⌊valRatio * n⌋ + ⌊testRatio * n⌋)) : ℤ) : ℚ) * trainRatio :=
    mul_nonneg (by exact_mod_cast hrem) htr
  refine ⟨?_, splitLengths_sum n valRatio testRatio trainRatio⟩
  rw [splitLengths_ratio_ne_one n valRatio testRatio trainRatio (ne_of_lt h1),
    pyInt_eq_floor _ hv', pyInt_eq_floor _ ht', pyInt_eq_floor _ hrem']
  simp [sub_sub]

/-- Witness for C3 at the specification's own scenario: 10 records with
`val_ratio = test_ratio = 1/5` and `train_ratio = 1/2` give a remaining
pool of 6, train size 3 and discard size 3, all four parts summing
to 10. -/
theorem c3_split_with_discard_witness :
    splitLengths 10 (1/5) (1/5) (1/2) = [2, 2, 3, 3] ∧
    (splitLengths 10 (1/5) (1/5) (1/2)).sum = 10 := by
  have h := c3_split_with_discard 10 (1/5) (1/5) (1/2) (by norm_num) (by norm_num)
    (by norm_num) (by norm_num) (by norm_num)
  refine ⟨?_, h.2⟩
  rw [h.1]
  norm_num

/-- Claim C4 fails as stated: `train_ratio = 2` lies outside `(0,1]`, yet
the split does not fail with `InvalidRatioError` — the source contains no
ratio validation at all and returns the computed lengths (with a negative
final entry) to be handed to the external `random_split`. -/
theorem c4_counterexample :
    ¬ (2 : ℚ) ≤ 1 ∧ splitSrc 10 (1/5) (1/5) 2 = .ok [2, 2, 12, -6] := by
  refine ⟨by norm_num, ?_⟩
  norm_num [splitSrc, splitLengths, pyInt]

/-- Claim C4 (amended): the split never raises `InvalidRatioError` (or any
other error of its own) for any ratio input; it always returns the
computed length list, whose entries sum exactly to `n` — out-of-range
ratios simply flow through the arithmetic, yielding negative entries where
the specification wanted a validation failure. -/
theorem c4_split_never_raises (n : ℕ) (valRatio testRatio trainRatio : ℚ) :
    splitSrc n valRatio testRatio trainRatio =
      .ok (splitLengths n valRatio testRatio trainRatio) ∧
    (splitLengths n valRatio testRatio trainRatio).sum = n :=
  ⟨rfl, splitLengths_sum n valRatio testRatio trainRatio⟩

/-- Claim C5: in regression mode the forward output of any sample, for any
upstream features and any head weights, lies in `[0, 100]`: the final
linear output is squashed by the logistic function into `(0,1)` and then
rescaled by 100. -/
theorem c5_regression_output_range {α : Type} {hidden : ℕ}
    (u : α → Fin hidden → ℝ) (m : RegMlps hidden) (x : α) :
    0 ≤ forwardReg u m x ∧ forwardReg u m x ≤ 100 := by
  have h0 : 0 < regMlpsApply m (u x) := sigmoid_pos _
  have h1 : regMlpsApply m (u x) < 1 := sigmoid_lt_one _
  unfold forwardReg
  constructor
  · nlinarith
  · nlinarith

/-- Claim C6: in classification mode `get_loss_metrics` normalizes the
same logits twice — the metric input is the softmax, whose entries sum to
1 for every sample, and the loss input is the elementwise logarithm of
exactly that distribution (`log_softmax = log ∘ softmax`). -/
theorem c6_classification_normalizations {b : ℕ} (pred : Fin b → Fin 3 → ℝ)
    (s : Fin b) :
    (∑ i, (getLossMetricsCls pred).2 s i) = 1 ∧
    ∀ i, (getLossMetricsCls pred).1 s i = Real.log ((getLossMetricsCls pred).2 s i) := by
  have hS : (0 : ℝ) < ∑ j, Real.exp (pred s j) := sum_exp_pos (pred s)
  constructor
  · unfold getLossMetricsCls softmax
    rw [← Finset.sum_div, div_self (ne_of_gt hS)]
  · intro i
    unfold getLossMetricsCls softmax logSoftmax
    rw [Real.log_div (Real.exp_ne_zero _) (ne_of_gt hS), Real.log_exp]

/-- Claim C7: in classification mode the label mapping is the exact-match
table `AD → 1`, `CN → 0`, `MCI → 2`, both at the mapping function and
through dataset item access on quoted manifest fields. -/
theorem c7_classification_label_table :
    mapLabelCls "AD" = some 1 ∧ mapLabelCls "CN" = some 0 ∧
    mapLabelCls "MCI" = some 2 ∧
    (ADNIDataset.mk [["\"i0\"", "g0", "\"AD\"", "x", "\"71.1\""],
        ["\"i1\"", "g1", "\"CN\"", "x", "\"72.2\""],
        ["\"i2\"", "g2", "\"MCI\"", "x", "\"73.3\""]] true).getitemLabel 0 =
      .ok (.cls 1) ∧
    (ADNIDataset.mk [["\"i0\"", "g0", "\"AD\"", "x", "\"71.1\""],
        ["\"i1\"", "g1", "\"CN\"", "x", "\"72.2\""],
        ["\"i2\"", "g2", "\"MCI\"", "x", "\"73.3\""]] true).getitemLabel 1 =
      .ok (.cls 0) ∧
    (ADNIDataset.mk [["\"i0\"", "g0", "\"AD\"", "x", "\"71.1\""],
        ["\"i1\"", "g1", "\"CN\"", "x", "\"72.2\""],
        ["\"i2\"", "g2", "\"MCI\"", "x", "\"73.3\""]] true).getitemLabel 2 =
      .ok (.cls 2) :=
  ⟨rfl, rfl, rfl, rfl, rfl, rfl⟩

/-- Claim C8: in regression mode the raw manifest field is parsed as a
number — `72.3` maps to the value `723/10` through dataset item access —
and every string the float parser rejects makes the mapping fail with the
parse error (`ValueError` from `float()`, the design's
`LabelParseError`). -/
theorem c8_regression_label_parse :
    mapLabelReg "72.3" = .ok (723/10 : ℚ) ∧
    (ADNIDataset.mk [["\"i0\"", "g0", "\"AD\"", "x", "\"72.3\""]] false).getitemLabel 0 =
      .ok (.score (723/10)) ∧
    ∀ s : String, parseFloat s = none → mapLabelReg s = .error .labelParse := by
  refine ⟨?_, ?_, ?_⟩
  · have h : mapLabelReg "72.3" =
        .ok ((1 : ℚ) * ((((72 : ℕ) : ℚ)) + (((3 : ℕ) : ℚ)) / 10 ^ 1)) := rfl
    rw [h]
    norm_num
  · have h : (ADNIDataset.mk [["\"i0\"", "g0", "\"AD\"", "x", "\"72.3\""]] false).getitemLabel 0 =
        .ok (.score ((1 : ℚ) * ((((72 : ℕ) : ℚ)) + (((3 : ℕ) : ℚ)) / 10 ^ 1))) := rfl
    rw [h]
    norm_num
  · intro s h
    simp [mapLabelReg, h]

/-- Witness for C8: the non-numeric string `n/a` is rejected by the parser
and the regression mapping fails with the parse error. -/
theorem c8_regression_label_parse_witness :
    parseFloat "n/a" = none ∧ mapLabelReg "n/a" = .error .labelParse :=
  ⟨rfl, c8_regression_label_parse.2.2 "n/a" rfl⟩

/-- Claim C9: constructing the model with `finetune_cnn = false` (the
design's `finetune_ensemble = false`) leaves zero trainable parameters in
the CNN ensemble, while `finetune_transformer = true` (the design's
`finetune_fusion = true`) keeps every fusion parameter trainable; the
optimizer is built exactly over the parameters still marked trainable. -/
theorem c9_freeze_and_optimizer (nTransformer nCnn nMlp : ℕ) :
    ((mkFinetuneModel true false nTransformer nCnn nMlp).cnnModels.filter
        (·.requiresGrad)).length = 0 ∧
    (mkFinetuneModel true false nTransformer nCnn nMlp).transformer.all
      (·.requiresGrad) = true ∧
    (mkFinetuneModel true false nTransformer nCnn nMlp).optimizerParams.all
      (·.requiresGrad) = true ∧
    (mkFinetuneModel true false nTransformer nCnn nMlp).optimizerParams =
      (mkFinetuneModel true false nTransformer nCnn nMlp).parameters.filter
        (·.requiresGrad) := by
  refine ⟨?_, ?_, all_requiresGrad_filter _, rfl⟩
  · rw [show (mkFinetuneModel true false nTransformer nCnn nMlp).cnnModels =
        freezeParams (freshParams nCnn) from rfl,
      freezeParams_freshParams, filter_requiresGrad_replicate_false]
    rfl
  · rw [show (mkFinetuneModel true false nTransformer nCnn nMlp).transformer =
        freshParams nTransformer from rfl]
    rw [List.all_eq_true]
    intro p hp
    have := List.eq_of_mem_replicate (by simpa [freshParams] using hp)
    simp [this]

/-- Claim C10: `customToTensor` on any numpy array returns a float32 array
of shape `(150, 150, 200)` produced by `np.resize` — cyclic repetition or
truncation of the flattened payload, no interpolation — with the initial
torch-tensor conversion discarded (the result depends only on the numpy
input); on any non-array input it returns `None`; and `resize_image`'s
type-error branch is unreachable, since `np.resize` always returns an
ndarray. -/
theorem c10_customToTensor (a : NDArray) (tag : String) (trg : List ℕ) :
    customToTensor (.ndarray a) =
      .ok (some { shape := [150, 150, 200], dtype := .float32,
                  data := fun i => if a.size = 0 then 0 else a.data (i % a.size) }) ∧
    customToTensor (.other tag) = .ok none ∧
    resize_image a trg = .ok (npResize a trg) :=
  ⟨rfl, rfl, rfl⟩

end Finetune
